import Mathlib

/-!
Verification of the profiler-client identity and personalization subsystem.

This file gives a shallow embedding, in Lean, of the relevant parts of
src/lib/Profiler.ts and of the earlier evolution in src/unnamed/part_003,
and proves (or refutes) the behavioural claims about them.

Modelling conventions:
  - JavaScript strings are Lean String; string truthiness is nonemptiness.
  - Optional fields are Option; an absent field is none.
  - Timestamps (Date().toISOString()) are modelled as Nat instants.
  - Network outcomes are explicit inductive oracles (rejection, malformed
    body, parsed body), since the code branches only on those shapes.
-/

namespace ProfilerClient

/-- JavaScript truthiness of a string value: every string except the empty
string is truthy. -/
def strTruthy (s : String) : Bool := s ≠ ""

/-- JavaScript truthiness of a possibly-absent string (undefined and null
are falsy, a string is truthy iff nonempty). -/
def jsTruthy : Option String → Bool
  | some s => strTruthy s
  | none => false

/-! ## Identity manager (src/lib/Profiler.ts, setPid and the ingestion step
of network, lines 373-432) -/

/-- The parsed JSON body of a response, as far as identity ingestion looks
at it: whether a ref field is present, and its (string) value. -/
structure ResponseBody where
  ref? : Option String
deriving DecidableEq

/-- In-memory pid plus the persisted cookie value (cookie __pid). -/
structure IdentityState where
  pid : Option String
  pidCookie : Option String
deriving DecidableEq

/-- setPid (Profiler.ts lines 424-432): if (pid) is a JS truthiness test,
so the empty string (and undefined) leave both the field and the cookie
untouched; a truthy pid updates the field and persists it immediately
(cookies.set with a 365-day expiry). -/
def setPid (s : IdentityState) (pid : String) : IdentityState :=
  if strTruthy pid then { pid := some pid, pidCookie := some pid } else s

/-- The ingestion step at the end of network (Profiler.ts lines 398-404):
if the parsed body is truthy and has a ref field, setPid is called on it.
A falsy JSON body (null, false, ...) is modelled as none. -/
def ingestRef (s : IdentityState) (body? : Option ResponseBody) : IdentityState :=
  match body? with
  | some body =>
    match body.ref? with
    | some r => setPid s r
    | none => s
  | none => s

/-- Processing a sequence of completed responses in completion order. -/
def processResponses (s : IdentityState) (rs : List (Option ResponseBody)) : IdentityState :=
  rs.foldl ingestRef s

/-- The ref of the most recently completed response that carried a ref
field at all (including a degenerate empty one) - this is what the claim
C2, read literally, says the pid tracks. -/
def claimedLastRef (rs : List (Option ResponseBody)) : Option String :=
  rs.foldl
    (fun acc b =>
      match b with
      | some body => match body.ref? with
        | some r => some r
        | none => acc
      | none => acc)
    none

/-- The truthy ref carried by one response body, if any. -/
def truthyRefOf : Option ResponseBody → Option String
  | some body =>
    match body.ref? with
    | some r => if strTruthy r then some r else none
    | none => none
  | none => none

/-- The ref of the most recently completed response carrying a truthy
(nonempty) ref - this is what the code actually tracks. -/
def lastTruthyRef : List (Option ResponseBody) → Option String
  | [] => none
  | b :: rs =>
    match lastTruthyRef rs with
    | some r => some r
    | none => truthyRefOf b

/-! ## The network helper and the public operations (src/lib/Profiler.ts)

network (lines 373-405) has no try/catch of its own: a rejected fetch or a
body that response.json() cannot parse makes the whole call reject. All
public operations except collect wrap their network call in try/catch and
only log; collect (lines 262-272) returns the network promise directly. -/

/-- Outcome of one network POST, as network observes it. -/
inductive NetOutcome where
  /-- fetch itself rejects (network error). -/
  | reject
  /-- a response arrives but response.json() rejects (unparseable body). -/
  | badJson
  /-- a response arrives and parses to the given JSON body (none models a
  falsy body such as null). Note network never looks at the status code. -/
  | json (body? : Option ResponseBody)
deriving DecidableEq

/-- network (Profiler.ts lines 373-405): awaits fetch, awaits json(), then
ingests a ref field when present, and returns the parsed body. Either
await can reject, and nothing here catches the rejection. -/
def network (s : IdentityState) (o : NetOutcome) : Except Unit (IdentityState × Option ResponseBody) :=
  match o with
  | .reject => .error ()
  | .badJson => .error ()
  | .json body? => .ok (ingestRef s body?, body?)

/-- updateProfile (lines 118-128): try/catch around the network call and
the refresh; every failure is logged and swallowed. The result is the
identity state after the call (unchanged when the call rejected). -/
def updateProfile (s : IdentityState) (o : NetOutcome) : Except Unit IdentityState :=
  match network s o with
  | .ok (s1, _) => .ok s1
  | .error _ => .ok s

/-- pushDataPoint (lines 130-148): same try/catch shape as updateProfile. -/
def pushDataPoint (s : IdentityState) (o : NetOutcome) : Except Unit IdentityState :=
  match network s o with
  | .ok (s1, _) => .ok s1
  | .error _ => .ok s

/-- pushAction (lines 178-199): same try/catch shape as updateProfile. -/
def pushAction (s : IdentityState) (o : NetOutcome) : Except Unit IdentityState :=
  match network s o with
  | .ok (s1, _) => .ok s1
  | .error _ => .ok s

/-- pushDataPoints (lines 150-176): fans out one network call per data
point, awaits them all, then refreshes - all inside one try/catch. For the
error-propagation claim only the catch matters; the fold threads the
ingestions of the calls that completed before any rejection. -/
def pushDataPointsStep (acc : Except Unit IdentityState) (o : NetOutcome) :
    Except Unit IdentityState :=
  match acc with
  | .ok s1 =>
    match network s1 o with
    | .ok (s2, _) => .ok s2
    | .error e => .error e
  | .error e => .error e

/-- The surrounding try/catch of pushDataPoints: any rejection of the
fanned-out calls lands in the catch, which logs and returns. -/
def pushDataPointsOp (s : IdentityState) (os : List NetOutcome) : Except Unit IdentityState :=
  match os.foldl pushDataPointsStep (.ok s) with
  | .ok s1 => .ok s1
  | .error _ => .ok s

/-- newSessionOp (lines 228-260): the whole body sits in a try/catch, so
no failure escapes (caps models the document/window capability guard). -/
def newSessionOp (caps : Bool) (s : IdentityState) (o : NetOutcome) : Except Unit IdentityState :=
  if caps then
    match network s o with
    | .ok (s1, _) => .ok s1
    | .error _ => .ok s
  else .ok s

/-- collect (lines 262-272): return await this.network(...) with no
try/catch anywhere on the path - a rejection propagates to the caller. -/
def collect (s : IdentityState) (o : NetOutcome) : Except Unit IdentityState :=
  match network s o with
  | .ok (s1, _) => .ok s1
  | .error e => .error e

/-! ## Session machine (src/lib/Profiler.ts, newSession lines 228-260 and
setSid lines 434-440) -/

/-- Session identity plus the persisted cookie (cookie __psid) plus a
count of dispatched new-session requests. -/
structure SessionState where
  sid : Option String
  sidCookie : Option String
  dispatches : Nat
deriving DecidableEq

/-- setSid (lines 434-440): truthiness-guarded like setPid; cookie has no
explicit expiry. -/
def setSid (s : SessionState) (sid : String) : SessionState :=
  if strTruthy sid then { s with sid := some sid, sidCookie := some sid } else s

/-- Outcome of the new-session POST as newSession observes it. -/
inductive SessionOutcome where
  /-- the network call rejected (caught by the surrounding try/catch). -/
  | fail
  /-- the call returned a parsed body; some sid when the body is truthy
  and has a sessionId field, none otherwise. -/
  | body (sessionId? : Option String)
deriving DecidableEq

/-- One invocation of newSession (lines 228-260). The guard is
document/window capabilities and !this.sid (JS truthiness); there is no
separate dispatch flag. When the guard passes, a request is dispatched,
and a truthy sessionId in the response is stored via setSid. -/
def newSession (caps : Bool) (s : SessionState) (o : SessionOutcome) : SessionState :=
  if caps ∧ jsTruthy s.sid = false then
    let s1 := { s with dispatches := s.dispatches + 1 }
    match o with
    | .fail => s1
    | .body none => s1
    | .body (some sd) => setSid s1 sd
  else s

/-- A sequence of newSession invocations, each paired with the outcome its
request would observe (invocations are sequential: each response is
processed before the next trigger). -/
def newSessionRun (caps : Bool) (s : SessionState) (os : List SessionOutcome) : SessionState :=
  os.foldl (newSession caps) s

/-! ## Attribution controller (src/unnamed/part_003, registerSource lines
120-146 and the ingestion tail of network lines 207-220)

In this evolution the identifier lives in localStorage under profilerRef.
registerSource sets hasRegisteredSource synchronously before awaiting its
network call, and network, after storing a truthy ref, re-invokes
registerSource only while the flag is still false. -/

/-- The fields of the part_003 Profiler that attribution touches. -/
structure AttrState where
  contactRef : Option String
  stored : Option String
  hasRegisteredSource : Bool
  sourceDispatches : Nat
deriving DecidableEq

/-- registerSource (part_003 lines 120-146): guarded by the
document/window capability test and JS truthiness of contactRef; when the
guard passes the one-shot flag is set and the sources request is
dispatched (the await comes after the flag assignment). -/
def registerSource (caps : Bool) (s : AttrState) : AttrState :=
  if caps ∧ jsTruthy s.contactRef then
    { s with hasRegisteredSource := true, sourceDispatches := s.sourceDispatches + 1 }
  else s

/-- The ingestion tail of network (part_003 lines 207-220) run on one
completed response: a truthy ref is stored in localStorage and in
contactRef, and registerSource is re-invoked only if the flag is still
false (the personalization branch does not touch attribution state). -/
def ingestAttr (caps : Bool) (s : AttrState) (ref? : Option String) : AttrState :=
  match ref? with
  | some r =>
    if strTruthy r ∧ caps then
      let s1 := { s with stored := some r, contactRef := some r }
      if s1.hasRegisteredSource = false ∧ jsTruthy s1.contactRef then
        registerSource caps s1
      else s1
    else s
  | none => s

/-- Construction (part_003 lines 51-64): contactRef is read from
localStorage (when available), and registerSource is called once. -/
def constructAttr (caps : Bool) (stored : Option String) : AttrState :=
  let s0 : AttrState :=
    { contactRef := if caps then stored else none
      stored := stored
      hasRegisteredSource := false
      sourceDispatches := 0 }
  registerSource caps s0

/-- One construction lifetime: construction followed by the completed
network responses in completion order, each carrying an optional ref. -/
def runAttr (caps : Bool) (stored : Option String) (refs : List (Option String)) : AttrState :=
  refs.foldl (ingestAttr caps) (constructAttr caps stored)

/-! ## Personalization fetch (src/lib/Profiler.ts, getPersonalizations
lines 201-226) -/

/-- A personalization variant record as the client parses it. -/
structure Personalization where
  id : String
  name : String
  js : Option String
  html : Option String
  htmlQuerySelector : Option String
  htmlPlacement : Option String
deriving DecidableEq

/-- Outcome of the personalization GET as getPersonalizations observes
it: rejection, or a response with a status and the result of parsing the
body (none models a body on which response.json() rejects; json() is only
reached for status 200). -/
inductive FetchOutcome where
  | reject
  | response (status : Nat) (parsed? : Option (List Personalization))
deriving DecidableEq

/-- getPersonalizations (lines 201-226): try/catch around the fetch; on
status 200 the parsed body is returned, any other status returns the empty
list, and both rejection paths fall into the catch which logs and reaches
the trailing return of the empty list. Modelled in Except to make "never
throws to the caller" a provable statement. -/
def getPersonalizations (o : FetchOutcome) : Except Unit (List Personalization) :=
  match o with
  | .reject => .ok []
  | .response status parsed? =>
    if status = 200 then
      match parsed? with
      | some vs => .ok vs
      | none => .ok []
    else .ok []

/-! ## pushDataPoints event order (src/lib/Profiler.ts lines 150-176)

The loop synchronously dispatches one network call per data point (an
async function runs to its first await at the call), then awaits
Promise.all over all of them, then awaits one handlePersonalizations.
The trace below records that order: all dispatches, then all settlements,
then the single refresh - the refresh only when every call succeeded,
because one rejection sends control to the catch block. -/

/-- Events observable from one pushDataPoints invocation. -/
inductive PushEv where
  | dispatch (i : Nat)
  | settle (i : Nat) (ok : Bool)
  | refresh
deriving DecidableEq

/-- Whether an event is a settlement. -/
def PushEv.isSettle : PushEv → Bool
  | .settle _ _ => true
  | _ => false

/-- Whether an event is a dispatch. -/
def PushEv.isDispatch : PushEv → Bool
  | .dispatch _ => true
  | _ => false

/-- The event trace of pushDataPoints on a list of data points, each
paired with whether its network call succeeds. Settlements are listed in
index order; the claim under study does not depend on the relative order
of settlements, only on their position before the refresh. -/
def pushDataPointsTrace (dps : List (String × Bool)) : List PushEv :=
  ((List.range dps.length).map PushEv.dispatch)
    ++ (dps.enum.map fun p => PushEv.settle p.1 p.2.2)
    ++ (if dps.all (fun d => d.2) then [PushEv.refresh] else [])

/-! ## Declarative interests parsing (src/lib/Profiler.ts, readMeta lines
274-308)

readMeta splits the content attribute on commas, each segment on colons,
and for each segment (the length > 0 guard: JS String.split with a
nonempty separator always returns at least one piece, so it never fails)
pushes a data point named by the part before the first colon, with weight
parseInt of the part after it when a colon is present and undefined
otherwise. -/

/-- JS String.prototype.split with a one-character separator, on the
character list: splitting the empty string yields one empty piece, and
separators at the ends yield empty pieces. -/
def splitChars (sep : Char) : List Char → List (List Char)
  | [] => [[]]
  | c :: cs =>
    match splitChars sep cs with
    | [] => [[]]
    | h :: t => if c = sep then [] :: h :: t else (c :: h) :: t

/-- JS String.prototype.split with a one-character separator. -/
def splitJS (s : String) (sep : Char) : List String :=
  (splitChars sep s.data).map String.mk

/-- The longest leading run of decimal digits. -/
def leadingDigits : List Char → List Char
  | [] => []
  | c :: cs => if c.isDigit then c :: leadingDigits cs else []

/-- Value of a list of decimal digits. -/
def digitsVal (ds : List Char) : Nat :=
  ds.foldl (fun a c => a * 10 + (c.toNat - 48)) 0

/-- JS parseInt with no radix argument on a decimal string: leading
whitespace is skipped, an optional sign is read, then the longest digit
prefix; the result is NaN (none) when no digit follows. (The hexadecimal
0x prefix form is not modelled; no claim touches it.) -/
def parseIntJS (s : String) : Option Int :=
  let cs := s.data.dropWhile Char.isWhitespace
  let signed : Int × List Char :=
    match cs with
    | '-' :: r => (-1, r)
    | '+' :: r => (1, r)
    | _ => (1, cs)
  match leadingDigits signed.2 with
  | [] => none
  | ds => some (signed.1 * digitsVal ds)

/-- A JS number as a data-point weight: either an actual integer or NaN
(what parseInt yields on a segment like name:abc). -/
inductive JsNum where
  | int (n : Int)
  | nan
deriving DecidableEq

/-- A data point as readMeta builds it: a name and an optional weight
(none models the undefined weight of a colon-free segment). -/
structure DataPointV where
  dataPoint : String
  value : Option JsNum
deriving DecidableEq

/-- The data point one comma segment yields in readMeta (lines 286-296):
name from the piece before the first colon, weight parseInt of the next
piece when the segment has a colon, undefined otherwise. -/
def segDataPoint (seg : String) : DataPointV :=
  { dataPoint := (splitJS seg ':').headD ""
    value :=
      if (splitJS seg ':').length > 1 then
        some (match parseIntJS ((splitJS seg ':').getD 1 "") with
              | some n => JsNum.int n
              | none => JsNum.nan)
      else none }

/-- The inner parsing loop of readMeta (lines 283-298), applied to one
content attribute value: split on commas, then per segment split on
colons, push the data point whenever the split is nonempty (the guard
contentArr.length > 0 of line 288). -/
def parseInterests (content : String) : List DataPointV :=
  (splitJS content ',').foldl
    (fun dps seg =>
      if (splitJS seg ':').length > 0 then dps ++ [segDataPoint seg] else dps)
    []

/-- True of a digit-only nonempty string: the strict integer literals the
spec means by "the integer after the colon". -/
def allDigits (s : String) : Bool :=
  s ≠ "" && s.data.all Char.isDigit

/-- Modelled from the spec (claim C8 wording, for comparison only): each
comma segment yields a data point with the text before the colon as name
and the integer after the colon as weight when present, absent otherwise,
and malformed segments - an empty name, more than one colon, or a
non-integer weight - are ignored. -/
def specSegParse (seg : String) : Option DataPointV :=
  match splitJS seg ':' with
  | [n] => if n ≠ "" then some { dataPoint := n, value := none } else none
  | [n, w] =>
    if n ≠ "" && allDigits w then
      match parseIntJS w with
      | some k => some { dataPoint := n, value := some (JsNum.int k) }
      | none => none
    else none
  | _ => none

/-- Modelled from the spec (claim C8 wording, for comparison only): the
whole parse with malformed segments ignored. -/
def specParseInterests (content : String) : List DataPointV :=
  (splitJS content ',').filterMap specSegParse

/-! ## Page view tracker (src/lib/Profiler.ts, newPageView lines 310-325
and endPageView lines 458-492)

Timestamps are Nat instants standing for Date().toISOString(). endPageView
stamps the exit timestamp on the open record and clears the field
regardless of whether the beacon preconditions hold; the closed list below
records each page view at the moment it is cleared. The timer reset and
readMeta call at the end of newPageView do not touch page-view state and
are not modelled here. -/

/-- A page view interval. -/
structure PageView where
  url : String
  enter : Nat
  exit : Option Nat
deriving DecidableEq

/-- The single optional open page view plus the history of closed ones
(in closing order, with their exit stamp). -/
structure PVState where
  pageView : Option PageView
  closed : List PageView
deriving DecidableEq

/-- endPageView (lines 458-492) at instant t: when a page view is open,
stamp exit := t, (best-effort beacon elided - it does not change state),
then clear the field. -/
def endPageView (s : PVState) (t : Nat) : PVState :=
  match s.pageView with
  | some pv => { pageView := none, closed := s.closed ++ [{ pv with exit := some t }] }
  | none => s

/-- newPageView (lines 310-325) at instant t: when a page view is open,
endPageView runs first; then a fresh record is installed, with the truthy
override url or the current location. -/
def newPageView (s : PVState) (t : Nat) (urlOverride : Option String) (currentUrl : String) : PVState :=
  let s1 := if s.pageView.isSome then endPageView s t else s
  { s1 with
      pageView := some
        { url := match urlOverride with
            | some u => if strTruthy u then u else currentUrl
            | none => currentUrl
          enter := t
          exit := none } }

/-! ## Personalization refresh and marker removal (src/lib/Profiler.ts,
handlePersonalizations lines 327-371, removePersonalizations lines
413-422, wrapDom lines 407-411)

The DOM is modelled as the flat sibling list of the nodes relevant to the
claim: each element carries a unique id, its class attribute, the
generation number of the refresh that inserted it (0 for pre-existing page
content), and its inner markup. Each variant with truthy html inserts one
wrapDom-wrapped span (carrying the reserved marker class) at the body
(the default beforeend placement with the default body target), and each
variant with truthy js appends one script element (no marker class).

document.getElementsByClassName returns a LIVE HTMLCollection (DOM
standard): the collection re-evaluates after every removal, which the
removal loop below reproduces by re-filtering the current list at each
index step. -/

/-- The reserved marker class (Profiler.ts line 90). -/
def PERSONALIZATION_CLASS_NAME : String := "__prfPrs"

/-- A DOM element in the flat model. -/
structure Elem where
  id : Nat
  cls : String
  gen : Nat
  content : String
deriving DecidableEq

/-- Whether an element carries the reserved marker class. -/
def isMarker (e : Elem) : Bool := e.cls = PERSONALIZATION_CLASS_NAME

/-- The loop of removePersonalizations (lines 418-421): for (i = 0;
i < elements.length; i++) elements[i].remove() over the live collection -
the element at the current index of the re-evaluated collection is
removed, then the index still advances. Fuel bounds the iteration count;
dom.length + 1 is always enough since every step removes one element. -/
def removeMarkedLoop : Nat → List Elem → Nat → List Elem
  | 0, dom, _ => dom
  | fuel + 1, dom, i =>
    let live := dom.filter isMarker
    match live.get? i with
    | some e => removeMarkedLoop fuel (dom.eraseP (fun x => x.id = e.id)) (i + 1)
    | none => dom

/-- removePersonalizations (lines 413-422). -/
def removePersonalizations (dom : List Elem) : List Elem :=
  removeMarkedLoop (dom.length + 1) dom 0

/-- A content variant as the refresh consumes it (selector and placement
take their defaults: body target, beforeend insertion). -/
structure Variant where
  html : Option String
  js : Option String
deriving DecidableEq

/-- The insertion phase of handlePersonalizations (lines 338-366) with
generation tag gen and fresh ids from nextId: per variant, one
marker-wrapped span for truthy html, then one script element for truthy
js, appended to the body. -/
def applyVariants (dom : List Elem) (vs : List Variant) (gen : Nat) (nextId : Nat) :
    List Elem × Nat :=
  vs.foldl
    (fun acc v =>
      let acc1 :=
        match v.html with
        | some h =>
          if strTruthy h then
            (acc.1 ++ [{ id := acc.2, cls := PERSONALIZATION_CLASS_NAME, gen := gen, content := h }],
             acc.2 + 1)
          else acc
        | none => acc
      match v.js with
      | some j =>
        if strTruthy j then
          (acc1.1 ++ [{ id := acc1.2, cls := "script", gen := gen, content := j }], acc1.2 + 1)
        else acc1
      | none => acc1)
    (dom, nextId)

/-- handlePersonalizations (lines 327-371) with the fetched variant list
vs: when personalization is enabled, removePersonalizations runs first and
the new generation is inserted after it. -/
def handlePersonalizations (personalize : Bool) (dom : List Elem) (vs : List Variant)
    (gen : Nat) (nextId : Nat) : List Elem × Nat :=
  if personalize then applyVariants (removePersonalizations dom) vs gen nextId
  else (dom, nextId)

/-! # Theorems -/

/-- Helper: a step with a truthy sid is the identity. -/
theorem newSession_truthy_sid_eq (caps : Bool) (s : SessionState) (o : SessionOutcome)
    (h : jsTruthy s.sid = true) : newSession caps s o = s := by
  unfold newSession
  rw [h]
  simp

/-- Helper: a run starting from a truthy sid is the identity. -/
theorem newSessionRun_truthy_sid_eq (caps : Bool) (s : SessionState)
    (os : List SessionOutcome) (h : jsTruthy s.sid = true) :
    newSessionRun caps s os = s := by
  induction os with
  | nil => rfl
  | cons o os ih =>
    show newSessionRun caps (newSession caps s o) os = s
    rw [newSession_truthy_sid_eq caps s o h, ih]

/-- C2 counterexample: after a response with ref "a" and then a completed
response whose ref field holds the empty string, the in-memory pid is
still "a", not the ref of the most recently completed response carrying a
ref field - the claim, read over all response sequences, is false. -/
theorem C2_pid_differs_from_last_carried_ref :
    (processResponses { pid := none, pidCookie := none }
        [some { ref? := some "a" }, some { ref? := some "" }]).pid
      ≠ claimedLastRef [some { ref? := some "a" }, some { ref? := some "" }] := by
  decide

/-- C2 (amended): after processing any sequence of completed responses,
the in-memory pid equals the ref of the most recently completed response
carrying a truthy (nonempty) ref, falling back to the prior pid when no
such response exists; the cookie tracks the same value (persisted
immediately on update), and a pid, once set, is never cleared. -/
theorem C2_pid_tracks_last_truthy_ref (s : IdentityState)
    (rs : List (Option ResponseBody)) :
    (processResponses s rs).pid
        = (match lastTruthyRef rs with | some r => some r | none => s.pid)
      ∧ (processResponses s rs).pidCookie
        = (match lastTruthyRef rs with | some r => some r | none => s.pidCookie)
      ∧ (s.pid ≠ none → (processResponses s rs).pid ≠ none) := by
  induction rs generalizing s with
  | nil => exact ⟨rfl, rfl, fun h => h⟩
  | cons b rs ih =>
    have step : processResponses s (b :: rs) = processResponses (ingestRef s b) rs := rfl
    have base :
        (ingestRef s b).pid
            = (match truthyRefOf b with | some r => some r | none => s.pid)
          ∧ (ingestRef s b).pidCookie
            = (match truthyRefOf b with | some r => some r | none => s.pidCookie) := by
      cases b with
      | none => exact ⟨rfl, rfl⟩
      | some body =>
        cases hr : body.ref? with
        | none => simp [ingestRef, truthyRefOf, hr]
        | some r =>
          by_cases ht : strTruthy r = true
          · simp [ingestRef, truthyRefOf, hr, setPid, ht]
          · simp [ingestRef, truthyRefOf, hr, setPid, ht]
    obtain ⟨ih1, ih2, _⟩ := ih (ingestRef s b)
    have hlast : lastTruthyRef (b :: rs)
        = (match lastTruthyRef rs with | some r => some r | none => truthyRefOf b) := rfl
    rw [step]
    refine ⟨?_, ?_, ?_⟩
    · rw [ih1, hlast]
      cases lastTruthyRef rs with
      | some r => rfl
      | none => rw [base.1]
    · rw [ih2, hlast]
      cases lastTruthyRef rs with
      | some r => rfl
      | none => rw [base.2]
    · intro hs
      rw [ih1]
      cases lastTruthyRef rs with
      | some r => simp
      | none =>
        rw [base.1]
        cases hb : truthyRefOf b with
        | some r => simp
        | none => simpa using hs


/-- C2 witness: the amended statement evaluated on a concrete state and
response sequence. -/
theorem C2_pid_tracks_last_truthy_ref_witness :
    (processResponses { pid := some "p0", pidCookie := some "p0" }
        [some { ref? := some "v1" }, some { ref? := some "" }]).pid
      = (match lastTruthyRef [some { ref? := some "v1" }, some { ref? := some "" }] with
         | some r => some r
         | none => some "p0")
    ∧ (processResponses { pid := some "p0", pidCookie := some "p0" }
        [some { ref? := some "v1" }, some { ref? := some "" }]).pid ≠ none := by
  have h := C2_pid_tracks_last_truthy_ref { pid := some "p0", pidCookie := some "p0" }
    [some { ref? := some "v1" }, some { ref? := some "" }]
  exact ⟨h.1, h.2.2 (by decide)⟩

/-- C10: a response body whose ref field holds the empty string (the only
falsy string) leaves both the in-memory pid and the persisted cookie
unchanged, while every nonempty ref updates both to that value. -/
theorem C10_falsy_ref_is_noop (s : IdentityState) :
    ingestRef s (some { ref? := some "" }) = s
      ∧ ∀ r : String, r ≠ "" →
          ingestRef s (some { ref? := some r }) = { pid := some r, pidCookie := some r } := by
  constructor
  · simp [ingestRef, setPid, strTruthy]
  · intro r hr
    simp [ingestRef, setPid, strTruthy, hr]

/-- C10 witness: the statement evaluated on a concrete state and a
concrete nonempty ref. -/
theorem C10_falsy_ref_is_noop_witness :
    ingestRef { pid := some "old", pidCookie := some "old" } (some { ref? := some "" })
        = { pid := some "old", pidCookie := some "old" }
      ∧ ingestRef { pid := some "old", pidCookie := some "old" } (some { ref? := some "v1" })
        = { pid := some "v1", pidCookie := some "v1" } :=
  ⟨(C10_falsy_ref_is_noop { pid := some "old", pidCookie := some "old" }).1,
   (C10_falsy_ref_is_noop { pid := some "old", pidCookie := some "old" }).2 "v1" (by decide)⟩

/-- C6: the personalization fetch never throws to its caller - for every
transport outcome it returns normally, with the parsed variant list
exactly on a status-200 response that parses, and the empty list on any
other status, on a body that fails to parse, and on transport failure. -/
theorem C6_fetch_variants_total (status : Nat) (parsed? : Option (List Personalization)) :
    getPersonalizations FetchOutcome.reject = .ok []
      ∧ getPersonalizations (FetchOutcome.response status parsed?)
        = .ok (if status = 200 then parsed?.getD [] else []) := by
  constructor
  · rfl
  · unfold getPersonalizations
    by_cases h : status = 200
    · cases parsed? with
      | some vs => simp [h]
      | none => simp [h]
    · simp [h]

/-- C9: opening a page view at instant t installs a fresh record with
enter = t and no exit, using the truthy override url or the current
location; when one was already open it is closed first - its record,
stamped with exit = t, is appended to the closed history before the new
one is installed - and when none was open the closed history is
untouched (the pageView field is a single option, so at most one page
view is ever open). -/
theorem C9_open_closes_previous (s : PVState) (t : Nat) (u : Option String)
    (cur : String) :
    (newPageView s t u cur).pageView
        = some { url := (match u with
                         | some x => if strTruthy x then x else cur
                         | none => cur)
                 enter := t
                 exit := none }
      ∧ (∀ pv, s.pageView = some pv →
          (newPageView s t u cur).closed = s.closed ++ [{ pv with exit := some t }])
      ∧ (s.pageView = none → (newPageView s t u cur).closed = s.closed) := by
  refine ⟨rfl, ?_, ?_⟩
  · intro pv hpv
    simp [newPageView, endPageView, hpv]
  · intro hnone
    simp [newPageView, endPageView, hnone]

/-- C9 witness: the statement evaluated on a concrete state with an open
page view. -/
theorem C9_open_closes_previous_witness :
    (newPageView
        { pageView := some { url := "a", enter := 1, exit := none }, closed := [] }
        5 none "b").pageView = some { url := "b", enter := 5, exit := none }
      ∧ (newPageView
          { pageView := some { url := "a", enter := 1, exit := none }, closed := [] }
          5 none "b").closed = [] ++ [{ url := "a", enter := 1, exit := some 5 }] := by
  have h := C9_open_closes_previous
    { pageView := some { url := "a", enter := 1, exit := none }, closed := [] } 5 none "b"
  exact ⟨h.1, h.2.1 { url := "a", enter := 1, exit := none } rfl⟩

/-- C4 counterexample: with the capability guard satisfied and no stored
session identifier, two successive newSession invocations whose responses
carry no sessionId dispatch two new-session requests, both while the
session identifier is absent (it is still absent afterwards) - the
at-most-once dispatch the claim states is false on the code, which guards
only on the sid field and has no one-shot dispatch flag. -/
theorem C4_two_dispatches_while_sid_absent :
    newSessionRun true { sid := none, sidCookie := none, dispatches := 0 }
        [SessionOutcome.body none, SessionOutcome.body none]
      = { sid := none, sidCookie := none, dispatches := 2 } := by
  decide

/-- C4 (amended): every newSession invocation while the session identifier
is absent (falsy) and the capability guard holds dispatches one request -
there is no one-shot flag, so repeated invocations can dispatch repeatedly
while no sessionId has been obtained; but once a truthy sessionId arrives
it is set and persisted, and an invocation with a truthy sid is a no-op,
as is any whole run starting from one (the machine never re-fires). -/
theorem C4_session_refires_only_while_sid_absent (caps : Bool) (s : SessionState)
    (o : SessionOutcome) (os : List SessionOutcome) :
    (jsTruthy s.sid = true → newSession caps s o = s ∧ newSessionRun caps s os = s)
      ∧ (caps = true → jsTruthy s.sid = false →
          (newSession caps s o).dispatches = s.dispatches + 1)
      ∧ (∀ sd, caps = true → jsTruthy s.sid = false → strTruthy sd = true →
          newSession caps s (SessionOutcome.body (some sd))
            = { sid := some sd, sidCookie := some sd, dispatches := s.dispatches + 1 }) := by
  refine ⟨?_, ?_, ?_⟩
  · intro h
    exact ⟨newSession_truthy_sid_eq caps s o h, newSessionRun_truthy_sid_eq caps s os h⟩
  · intro hc hs
    unfold newSession
    rw [hc, hs]
    simp only [true_and]
    cases o with
    | fail => rfl
    | body sid? =>
      cases sid? with
      | none => rfl
      | some sd =>
        show (setSid { s with dispatches := s.dispatches + 1 } sd).dispatches
          = s.dispatches + 1
        unfold setSid
        by_cases ht : strTruthy sd = true
        · rw [ht]
          rfl
        · simp only [Bool.not_eq_true] at ht
          rw [ht]
          rfl
  · intro sd hc hs ht
    simp [newSession, setSid, hc, hs, ht]

/-- C4 witness: the amended statement evaluated at a concrete truthy-sid
state and at a concrete absent-sid state. -/
theorem C4_session_refires_only_while_sid_absent_witness :
    (newSession true { sid := some "s0", sidCookie := some "s0", dispatches := 1 }
        (SessionOutcome.body none)
      = { sid := some "s0", sidCookie := some "s0", dispatches := 1 })
    ∧ (newSession true { sid := none, sidCookie := none, dispatches := 0 }
        (SessionOutcome.body none)).dispatches = 0 + 1
    ∧ newSession true { sid := none, sidCookie := none, dispatches := 0 }
        (SessionOutcome.body (some "s1"))
      = { sid := some "s1", sidCookie := some "s1", dispatches := 0 + 1 } :=
  ⟨((C4_session_refires_only_while_sid_absent true
      { sid := some "s0", sidCookie := some "s0", dispatches := 1 }
      (SessionOutcome.body none) []).1 (by decide)).1,
   (C4_session_refires_only_while_sid_absent true
      { sid := none, sidCookie := none, dispatches := 0 }
      (SessionOutcome.body none) []).2.1 rfl (by decide),
   (C4_session_refires_only_while_sid_absent true
      { sid := none, sidCookie := none, dispatches := 0 }
      (SessionOutcome.body none) []).2.2 "s1" rfl (by decide) (by decide)⟩

/-- C3 counterexample: a transport failure during collect propagates to
the caller - collect returns the network promise with no try/catch, so
the claim that no failure escapes any public operation is false. -/
theorem C3_collect_propagates :
    collect { pid := none, pidCookie := none } NetOutcome.reject = .error () := by
  rfl

/-- C3 (amended): every public operation except collect - update profile,
push data point, push data points, push action, new session, get
personalizations - returns normally for every transport outcome,
including rejection and malformed bodies (each catches at the operation
and only logs); collect alone propagates, failing exactly when its
network call rejects or its body fails to parse. Page-view open and
close are synchronous state updates with no failure path (modelled as
the total functions newPageView and endPageView). -/
theorem C3_all_catch_except_collect (s : IdentityState) (o : NetOutcome)
    (os : List NetOutcome) (caps : Bool) (po : FetchOutcome) :
    (∃ s1, updateProfile s o = .ok s1)
      ∧ (∃ s1, pushDataPoint s o = .ok s1)
      ∧ (∃ s1, pushAction s o = .ok s1)
      ∧ (∃ s1, pushDataPointsOp s os = .ok s1)
      ∧ (∃ s1, newSessionOp caps s o = .ok s1)
      ∧ (∃ vs, getPersonalizations po = .ok vs)
      ∧ (collect s o = .error () ↔ (o = NetOutcome.reject ∨ o = NetOutcome.badJson)) := by
  refine ⟨?_, ?_, ?_, ?_, ?_, ?_, ?_⟩
  · cases o <;> exact ⟨_, rfl⟩
  · cases o <;> exact ⟨_, rfl⟩
  · cases o <;> exact ⟨_, rfl⟩
  · unfold pushDataPointsOp
    cases hf : os.foldl pushDataPointsStep (Except.ok s) with
    | ok s1 => exact ⟨s1, rfl⟩
    | error e => exact ⟨s, rfl⟩
  · cases caps with
    | false => exact ⟨s, rfl⟩
    | true => cases o <;> exact ⟨_, rfl⟩
  · cases po with
    | reject => exact ⟨[], rfl⟩
    | response status parsed? =>
      unfold getPersonalizations
      by_cases h : status = 200
      · cases parsed? with
        | some vs => exact ⟨vs, by simp [h]⟩
        | none => exact ⟨[], by simp [h]⟩
      · exact ⟨[], by simp [h]⟩
  · cases o with
    | reject => simp [collect, network]
    | badJson => simp [collect, network]
    | json body? => simp [collect, network]

/-- Helper: one ingestion step preserves the coupling between the
one-shot flag and the dispatch count (they are set together inside
registerSource, before the await). -/
theorem ingestAttr_inv (caps : Bool) (s : AttrState) (r : Option String)
    (h : s.sourceDispatches = (if s.hasRegisteredSource then 1 else 0)) :
    (ingestAttr caps s r).sourceDispatches
      = (if (ingestAttr caps s r).hasRegisteredSource then 1 else 0) := by
  cases r with
  | none => exact h
  | some x =>
    simp only [ingestAttr, registerSource]
    split_ifs <;> simp_all

/-- Helper: once the one-shot flag is set, ingestion never dispatches
again nor clears the flag. -/
theorem ingestAttr_flag_true (caps : Bool) (s : AttrState) (r : Option String)
    (h : s.hasRegisteredSource = true) :
    (ingestAttr caps s r).hasRegisteredSource = true
      ∧ (ingestAttr caps s r).sourceDispatches = s.sourceDispatches := by
  cases r with
  | none => exact ⟨h, rfl⟩
  | some x =>
    simp only [ingestAttr, registerSource]
    split_ifs <;> simp_all

/-- Helper: a whole run from a flag-set state keeps the flag and the
dispatch count. -/
theorem foldAttr_flag_true (caps : Bool) (refs : List (Option String)) (s : AttrState)
    (h : s.hasRegisteredSource = true) :
    (refs.foldl (ingestAttr caps) s).hasRegisteredSource = true
      ∧ (refs.foldl (ingestAttr caps) s).sourceDispatches = s.sourceDispatches := by
  induction refs generalizing s with
  | nil => exact ⟨h, rfl⟩
  | cons r refs ih =>
    rw [List.foldl_cons]
    have step := ingestAttr_flag_true caps s r h
    have tail := ih (ingestAttr caps s r) step.1
    exact ⟨tail.1, by rw [tail.2, step.2]⟩

/-- Helper: the flag-and-count coupling holds over any run. -/
theorem foldAttr_inv (caps : Bool) (refs : List (Option String)) (s : AttrState)
    (h : s.sourceDispatches = (if s.hasRegisteredSource then 1 else 0)) :
    (refs.foldl (ingestAttr caps) s).sourceDispatches
      = (if (refs.foldl (ingestAttr caps) s).hasRegisteredSource then 1 else 0) := by
  induction refs generalizing s with
  | nil => exact h
  | cons r refs ih => exact ih (ingestAttr caps s r) (ingestAttr_inv caps s r h)

/-- Helper: construction establishes the flag-and-count coupling. -/
theorem constructAttr_inv (caps : Bool) (stored : Option String) :
    (constructAttr caps stored).sourceDispatches
      = (if (constructAttr caps stored).hasRegisteredSource then 1 else 0) := by
  simp only [constructAttr, registerSource]
  split_ifs <;> simp_all

/-- Helper: with capabilities and a falsy stored identifier, construction
dispatches nothing and leaves the flag clear. -/
theorem constructAttr_absent (stored : Option String) (h : jsTruthy stored = false) :
    constructAttr true stored
      = { contactRef := stored, stored := stored
          hasRegisteredSource := false, sourceDispatches := 0 } := by
  simp [constructAttr, registerSource, h]

/-- Helper: from a clear-flag, zero-dispatch state with capabilities, a
run dispatches exactly once when some response carries a truthy ref, and
never otherwise. -/
theorem foldAttr_flag_false (refs : List (Option String)) (s : AttrState)
    (hf : s.hasRegisteredSource = false) (hd : s.sourceDispatches = 0) :
    (refs.foldl (ingestAttr true) s).sourceDispatches
      = (if refs.any jsTruthy then 1 else 0) := by
  induction refs generalizing s with
  | nil => simpa using hd
  | cons r refs ih =>
    cases r with
    | none =>
      have : ingestAttr true s none = s := rfl
      rw [List.foldl_cons, this, ih s hf hd]
      simp [jsTruthy]
    | some x =>
      by_cases hx : strTruthy x = true
      · have hstep : ingestAttr true s (some x)
            = { contactRef := some x, stored := some x
                hasRegisteredSource := true, sourceDispatches := s.sourceDispatches + 1 } := by
          simp [ingestAttr, registerSource, hx, hf, jsTruthy]
        have tail := foldAttr_flag_true true refs (ingestAttr true s (some x))
          (by rw [hstep])
        rw [List.foldl_cons, tail.2, hstep]
        simp [hd, List.any_cons, jsTruthy, hx]
      · have hstep : ingestAttr true s (some x) = s := by
          simp only [Bool.not_eq_true] at hx
          simp [ingestAttr, hx]
        rw [List.foldl_cons, hstep, ih s hf hd]
        simp only [Bool.not_eq_true] at hx
        simp [List.any_cons, jsTruthy, hx]

/-- C5: over one construction lifetime of the part_003 client -
construction followed by any sequence of completed responses - the
attribution (register-source) call is dispatched at most once; and when
the runtime capabilities are present and the stored visitor identifier is
absent (falsy) at construction, attribution is dispatched exactly once
when some response carries a truthy ref (necessarily at or after that
ingestion, since the count is zero until then) and never otherwise. -/
theorem C5_attribution_at_most_once (caps : Bool) (stored : Option String)
    (refs : List (Option String)) :
    (runAttr caps stored refs).sourceDispatches ≤ 1
      ∧ (caps = true → jsTruthy stored = false →
          (runAttr caps stored refs).sourceDispatches
            = (if refs.any jsTruthy then 1 else 0)) := by
  constructor
  · have h := foldAttr_inv caps refs (constructAttr caps stored)
      (constructAttr_inv caps stored)
    unfold runAttr
    rw [h]
    split_ifs <;> omega
  · intro hc habs
    subst hc
    unfold runAttr
    rw [constructAttr_absent stored habs]
    exact foldAttr_flag_false refs _ rfl rfl

/-- C5 witness: the statement evaluated with capabilities present, no
stored identifier, and a trace whose first response carries ref v1. -/
theorem C5_attribution_at_most_once_witness :
    (runAttr true none [some "v1", some "v2"]).sourceDispatches ≤ 1
      ∧ (runAttr true none [some "v1", some "v2"]).sourceDispatches
        = (if ([some "v1", some "v2"] : List (Option String)).any jsTruthy then 1 else 0) :=
  ⟨(C5_attribution_at_most_once true none [some "v1", some "v2"]).1,
   (C5_attribution_at_most_once true none [some "v1", some "v2"]).2 rfl (by decide)⟩

/-- Helper: the refresh event never occurs among the dispatch and settle
events of the fan-out. -/
theorem refresh_not_in_fanout (dps : List (String × Bool)) :
    PushEv.refresh ∉
      ((List.range dps.length).map PushEv.dispatch)
        ++ (dps.enum.map fun p => PushEv.settle p.1 p.2.2) := by
  intro hmem
  rcases List.mem_append.1 hmem with h | h
  · rcases List.mem_map.1 h with ⟨i, _, hi⟩
    exact PushEv.noConfusion hi
  · rcases List.mem_map.1 h with ⟨p, _, hp⟩
    exact PushEv.noConfusion hp

/-- Helper: when a list not containing a equals pre ++ a :: post, the
occurrence of a is the appended one: pre is the whole list and post is
empty. -/
theorem append_singleton_cancel {α : Type} (a : α) :
    ∀ (l pre post : List α), a ∉ l → l ++ [a] = pre ++ a :: post →
      pre = l ∧ post = [] := by
  intro l
  induction l with
  | nil =>
    intro pre post _ h
    cases pre with
    | nil =>
      simp only [List.nil_append] at h
      obtain ⟨-, h2⟩ := List.cons.inj h
      exact ⟨rfl, h2.symm⟩
    | cons p pr =>
      simp only [List.nil_append, List.cons_append] at h
      obtain ⟨-, h2⟩ := List.cons.inj h
      exact absurd h2 (by simp)
  | cons x l ih =>
    intro pre post hnm h
    cases pre with
    | nil =>
      simp only [List.cons_append, List.nil_append] at h
      obtain ⟨h1, -⟩ := List.cons.inj h
      exact absurd (h1 ▸ List.mem_cons_self x l) hnm
    | cons p pr =>
      simp only [List.cons_append] at h
      obtain ⟨h1, h2⟩ := List.cons.inj h
      have tail := ih pr post (fun hm => hnm (List.mem_cons_of_mem x hm)) h2
      exact ⟨by rw [h1, tail.1], tail.2⟩

/-- Helper: settle events are kept in full by the settle filter. -/
theorem filter_settle_settles (l : List (Nat × (String × Bool))) :
    (l.map fun p => PushEv.settle p.1 p.2.2).filter PushEv.isSettle
      = l.map fun p => PushEv.settle p.1 p.2.2 :=
  List.filter_eq_self.2 (by
    intro e he
    rcases List.mem_map.1 he with ⟨p, _, hp⟩
    rw [← hp]
    rfl)

/-- Helper: no dispatch event is a settle event. -/
theorem filter_settle_dispatches (l : List Nat) :
    (l.map PushEv.dispatch).filter PushEv.isSettle = [] :=
  List.filter_eq_nil_iff.2 (by
    intro e he
    rcases List.mem_map.1 he with ⟨i, _, hi⟩
    rw [← hi]
    exact Bool.noConfusion)

/-- Helper: dispatch events are kept in full by the dispatch filter. -/
theorem filter_dispatch_dispatches (l : List Nat) :
    (l.map PushEv.dispatch).filter PushEv.isDispatch = l.map PushEv.dispatch :=
  List.filter_eq_self.2 (by
    intro e he
    rcases List.mem_map.1 he with ⟨i, _, hi⟩
    rw [← hi]
    rfl)

/-- Helper: no settle event is a dispatch event. -/
theorem filter_dispatch_settles (l : List (Nat × (String × Bool))) :
    (l.map fun p => PushEv.settle p.1 p.2.2).filter PushEv.isDispatch = [] :=
  List.filter_eq_nil_iff.2 (by
    intro e he
    rcases List.mem_map.1 he with ⟨p, _, hp⟩
    rw [← hp]
    exact Bool.noConfusion)

/-- C7: for every list of data points (paired with the success of its
network call), the pushDataPoints trace contains one dispatch per data
point; when every call succeeds it contains exactly one refresh and
otherwise none (a rejection lands in the catch); and any refresh in the
trace comes strictly after all of the per-point settlements - every one
of the dps.length settle events precedes it and nothing follows it. -/
theorem C7_refresh_after_all_settle (dps : List (String × Bool)) :
    ((pushDataPointsTrace dps).filter PushEv.isDispatch).length = dps.length
      ∧ ((pushDataPointsTrace dps).filter PushEv.isSettle).length = dps.length
      ∧ (pushDataPointsTrace dps).count PushEv.refresh
        = (if dps.all (fun d => d.2) then 1 else 0)
      ∧ (∀ pre post, pushDataPointsTrace dps = pre ++ PushEv.refresh :: post →
          (pre.filter PushEv.isSettle).length = dps.length ∧ post = []) := by
  refine ⟨?_, ?_, ?_, ?_⟩
  · unfold pushDataPointsTrace
    rw [List.filter_append, List.filter_append, filter_dispatch_dispatches,
      filter_dispatch_settles]
    have hc : (if dps.all (fun d => d.2) then [PushEv.refresh] else []).filter
        PushEv.isDispatch = [] := by
      split_ifs <;> rfl
    rw [hc]
    simp
  · unfold pushDataPointsTrace
    rw [List.filter_append, List.filter_append, filter_settle_dispatches,
      filter_settle_settles]
    have hc : (if dps.all (fun d => d.2) then [PushEv.refresh] else []).filter
        PushEv.isSettle = [] := by
      split_ifs <;> rfl
    rw [hc]
    simp [List.enum_length]
  · unfold pushDataPointsTrace
    rw [List.count_append, List.count_append]
    have h1 : ((List.range dps.length).map PushEv.dispatch).count PushEv.refresh = 0 :=
      List.count_eq_zero.2 (by
        intro hmem
        rcases List.mem_map.1 hmem with ⟨i, _, hi⟩
        exact PushEv.noConfusion hi)
    have h2 : (dps.enum.map fun p => PushEv.settle p.1 p.2.2).count PushEv.refresh = 0 :=
      List.count_eq_zero.2 (by
        intro hmem
        rcases List.mem_map.1 hmem with ⟨p, _, hp⟩
        exact PushEv.noConfusion hp)
    rw [h1, h2]
    split_ifs <;> rfl
  · intro pre post h
    by_cases hall : dps.all (fun d => d.2) = true
    · unfold pushDataPointsTrace at h
      rw [hall, if_pos rfl] at h
      have := append_singleton_cancel PushEv.refresh
        (((List.range dps.length).map PushEv.dispatch)
          ++ (dps.enum.map fun p => PushEv.settle p.1 p.2.2)) pre post
        (refresh_not_in_fanout dps) h
      refine ⟨?_, this.2⟩
      rw [this.1, List.filter_append, filter_settle_dispatches, filter_settle_settles]
      simp [List.enum_length]
    · exfalso
      have hmem : PushEv.refresh ∈ pushDataPointsTrace dps := by
        rw [h]
        exact List.mem_append_right pre (List.mem_cons_self _ _)
      unfold pushDataPointsTrace at hmem
      rw [if_neg hall, List.append_nil] at hmem
      exact refresh_not_in_fanout dps hmem

/-- C7 witness: the statement evaluated on one data point with a
successful call, at the trace decomposition around its refresh event. -/
theorem C7_refresh_after_all_settle_witness :
    ((pushDataPointsTrace [("a", true)]).filter PushEv.isDispatch).length = 1
      ∧ (([PushEv.dispatch 0, PushEv.settle 0 true].filter PushEv.isSettle).length = 1
          ∧ ([] : List PushEv) = []) :=
  ⟨(C7_refresh_after_all_settle [("a", true)]).1,
   (C7_refresh_after_all_settle [("a", true)]).2.2.2
     [PushEv.dispatch 0, PushEv.settle 0 true] [] (by decide)⟩

/-- Helper: JS split never yields an empty array. -/
theorem splitChars_ne_nil (sep : Char) (l : List Char) : splitChars sep l ≠ [] := by
  cases l with
  | nil => simp [splitChars]
  | cons c cs =>
    unfold splitChars
    cases h : splitChars sep cs with
    | nil => simp
    | cons hd tl => split_ifs <;> simp

/-- Helper: the guard contentArr.length > 0 of readMeta line 288 always
holds. -/
theorem splitJS_length_pos (s : String) (sep : Char) : 0 < (splitJS s sep).length := by
  unfold splitJS
  rw [List.length_map]
  exact List.length_pos.2 (splitChars_ne_nil sep s.data)

/-- Helper: with its guard always true, the readMeta fold is the plain
map over comma segments. -/
theorem parseInterests_foldl (l : List String) (acc : List DataPointV) :
    l.foldl
        (fun dps seg =>
          if (splitJS seg ':').length > 0 then dps ++ [segDataPoint seg] else dps)
        acc
      = acc ++ l.map segDataPoint := by
  induction l generalizing acc with
  | nil => simp
  | cons seg l ih =>
    rw [List.foldl_cons, if_pos (splitJS_length_pos seg ':'), ih]
    simp

/-- C8 counterexample: on content "," the code yields two data points
(one per empty segment, each with empty name and absent weight), while a
parse that ignores malformed segments - the claim - yields none; so the
claim that malformed segments are ignored is false on the code. -/
theorem C8_malformed_segments_not_ignored :
    parseInterests "," ≠ specParseInterests ","
      ∧ parseInterests ","
        = [{ dataPoint := "", value := none }, { dataPoint := "", value := none }]
      ∧ specParseInterests "," = [] := by
  refine ⟨by decide, by decide, by decide⟩

/-- C8 (amended): the parser splits the content on commas and each
segment on colons, and no segment is ever ignored - the split result is
never empty, so the guard always passes and each segment yields exactly
one data point, whose name is the text before the first colon and whose
weight is the JS parseInt of the text after it when a colon is present
(which is NaN when that text has no leading digits) and absent
otherwise; in particular "sports:5,music" yields exactly the two data
points (sports, 5) and (music, absent), pushed as one batch. -/
theorem C8_every_segment_yields_datapoint (content : String) :
    parseInterests content = (splitJS content ',').map segDataPoint
      ∧ parseInterests "sports:5,music"
        = [{ dataPoint := "sports", value := some (JsNum.int 5) },
           { dataPoint := "music", value := none }] := by
  constructor
  · unfold parseInterests
    rw [parseInterests_foldl]
    simp
  · decide

/-- The failing input for the refresh-idempotency claim: two variants
with markup (and the default body target), so one refresh inserts two
marker-wrapped spans. -/
def twoMarkupVariants : List Variant :=
  [{ html := some "A", js := none }, { html := some "B", js := none }]

/-- C1 (code bug, evaluated at the failing input): starting from an empty
DOM, one refresh with two markup variants leaves two marker spans
(generation 1); a second refresh with the same variant set then leaves
THREE marker spans, one of which still belongs to generation 1 - the
removal loop of removePersonalizations walks the live
getElementsByClassName collection with an increasing index while calling
remove(), so it deletes only every other marker node (here one of two)
and a previous-generation node survives, contradicting the claim that
each refresh removes every marker node before inserting the new
generation. -/
theorem C1_previous_generation_marker_survives :
    ((handlePersonalizations true [] twoMarkupVariants 1 100).1.filter isMarker).length = 2
      ∧ (((handlePersonalizations true
            (handlePersonalizations true [] twoMarkupVariants 1 100).1
            twoMarkupVariants 2
            (handlePersonalizations true [] twoMarkupVariants 1 100).2).1).filter
            (fun e => isMarker e && e.gen == 1)).length = 1
      ∧ (((handlePersonalizations true
            (handlePersonalizations true [] twoMarkupVariants 1 100).1
            twoMarkupVariants 2
            (handlePersonalizations true [] twoMarkupVariants 1 100).2).1).filter
            isMarker).length = 3 := by
  refine ⟨by decide, by decide, by decide⟩

end ProfilerClient
